import Mathlib

/-!
Shallow embedding of the lovely-env-logger formatting core (src/lib.rs) and
proofs about the claims of its specification.

The embedding models:
* `Config` and `Config.from_environment_variables` (configuration resolution,
  lib.rs lines 94-196), with the process environment passed explicitly as a
  lookup function `String → Option String`;
* `compute_target_and_location` (lib.rs lines 378-431) with the global
  `MAX_MODULE_WIDTH` atomic passed in and out explicitly as a `Nat` state;
* `max_target_width` (lib.rs lines 432-440), returning both the resulting
  width and the new tracker state;
* `colored_level` (lib.rs lines 442-456), returning the color attribute and
  the label text (ANSI styling by the external `env_logger` styles is not
  modelled, only the color choice and label);
* `compute_reltime` (lib.rs lines 486-505) over an explicit time model
  `LocalTime`; the chrono `DateTime<Local>` is modelled by its naive date and
  the hour/minute/second/nanosecond fields the code inspects;
* the format closure of `formatted_builder` (lib.rs lines 296-345) as
  `format_record`, a pure function from the record, configuration, tracker
  state and time state to the output line and the new states.  The two
  externally rendered timestamp strings (chrono's `%b%e %T` formatting and
  env_logger's `timestamp_millis`) are parameters, since they are produced by
  external collaborators.

Machine integers (`usize`, `u32`) are modelled as `Nat`; the subtractions the
source performs on them are `Nat` subtraction, and the no-underflow claims are
proved explicitly.
-/

/-- Severity levels of the `log` crate, in increasing severity order. -/
inductive Level where
  | Trace
  | Debug
  | Info
  | Warn
  | Error
  deriving DecidableEq

/-- Colors used by `colored_level` (subset of `env_logger::fmt::Color`). -/
inductive Color where
  | Magenta
  | Blue
  | Green
  | Yellow
  | Red
  deriving DecidableEq

/-- Configuration for the lovely env logger (lib.rs lines 94-110), with both
feature-gated timestamp fields present. -/
structure Config where
  with_system_timestamp : Bool
  reltime : Bool
  short_levels : Bool
  with_file_name : Bool
  with_line_number : Bool
  with_padding : Bool
  deriving DecidableEq

/-- The `Default` instance for `Config` (lib.rs lines 112-127): every field
is `false`. -/
def Config.default : Config :=
  { with_system_timestamp := false
    reltime := false
    short_levels := false
    with_file_name := false
    with_line_number := false
    with_padding := false }

/-- Configuration resolution `Config::from_environment_variables`
(lib.rs lines 154-195).  The process environment is modelled as a lookup
function from variable names to optional values.  Each field is resolved from
the variable named by the caller-supplied name plus a field suffix: when the
variable is set, the field is the comparison of its value with the string
`"1"`; when it is absent, the field is the fallback configuration's field. -/
def Config.from_environment_variables (env : String → Option String)
    (pfx : String) (fallback_cfg : Config) : Config :=
  { with_system_timestamp :=
      match env (pfx ++ "_WITH_SYSTEM_TIMESTAMPS") with
      | some v => v == "1"
      | none => fallback_cfg.with_system_timestamp
    reltime :=
      match env (pfx ++ "_WITH_RELATIVE_TIMESTAMPS") with
      | some v => v == "1"
      | none => fallback_cfg.reltime
    short_levels :=
      match env (pfx ++ "_SHORT_LEVELS") with
      | some v => v == "1"
      | none => fallback_cfg.short_levels
    with_file_name :=
      match env (pfx ++ "_WITH_FILE_NAME") with
      | some v => v == "1"
      | none => fallback_cfg.with_file_name
    with_line_number :=
      match env (pfx ++ "_WITH_LINE_NUMBER") with
      | some v => v == "1"
      | none => fallback_cfg.with_line_number
    with_padding :=
      match env (pfx ++ "_WITH_PADDING") with
      | some v => v == "1"
      | none => fallback_cfg.with_padding }

/-- A log record (the fields of `log::Record` the formatter reads): target
string, optional source file, optional source line, level, and the message
text (`record.args()` rendered). -/
structure Record where
  target : String
  file : Option String
  line : Option Nat
  level : Level
  msg : String

/-- Decimal digit list of a natural number, most significant first; embeds the
decimal rendering performed by Rust's `u32::to_string`. -/
def natDecimalDigits (n : Nat) : List Char :=
  if _h : n < 10 then [Nat.digitChar n]
  else natDecimalDigits (n / 10) ++ [Nat.digitChar (n % 10)]
decreasing_by exact Nat.div_lt_self (by omega) (by omega)

/-- Decimal string of a natural number (`line.to_string()` in the source). -/
def natDecimalRepr (n : Nat) : String :=
  String.mk (natDecimalDigits n)

/-- The file that will be displayed: `record.file()` if `with_file_name` is
set, `None` otherwise (lib.rs lines 383-387). -/
def shown_file (r : Record) (cfg : Config) : Option String :=
  if cfg.with_file_name then r.file else none

/-- The line number that will be displayed: `record.line()` if
`with_line_number` is set, `None` otherwise (lib.rs lines 388-392). -/
def shown_line (r : Record) (cfg : Config) : Option Nat :=
  if cfg.with_line_number then r.line else none

/-- The `(added_opt, added_len)` pair computed by the `match` on
`(opt_file, opt_line)` in `compute_target_and_location`
(lib.rs lines 394-408). -/
def added_opt_len (r : Record) (cfg : Config) : Option String × Nat :=
  match shown_file r cfg, shown_line r cfg with
  | none, none => (none, 0)
  | some file, none => (some (":" ++ file), file.length + 1)
  | none, some line =>
      let line_str := natDecimalRepr line
      (some (":" ++ line_str), line_str.length + 1)
  | some file, some line =>
      let line_str := natDecimalRepr line
      (some (":" ++ file ++ ":" ++ line_str), file.length + line_str.length + 2)

/-- The location suffix string appended after the target: the `added_opt`
component, with `None` read as the empty suffix. -/
def location_suffix (r : Record) (cfg : Config) : String :=
  ((added_opt_len r cfg).1).getD ""

/-- Combined natural length `target_len + added_len` of target plus location
suffix. -/
def target_location_len (r : Record) (cfg : Config) : Nat :=
  r.target.length + (added_opt_len r cfg).2

/-- The function `max_target_width` (lib.rs lines 432-440) acting on the
`MAX_MODULE_WIDTH` atomic passed explicitly: given the current tracker value
and the observed length, returns the width to use and the new tracker value.
When the tracker is below the observed length it is raised to it and the
length is returned; otherwise the tracker is returned unchanged. -/
def max_target_width (tracker : Nat) (target_len : Nat) : Nat × Nat :=
  if tracker < target_len then (target_len, target_len) else (tracker, tracker)

/-- The `full_width` computed in `compute_target_and_location`
(lib.rs lines 409-413): the tracked maximum when padding is enabled, the
natural combined length otherwise. -/
def full_width (r : Record) (cfg : Config) (tracker : Nat) : Nat :=
  if cfg.with_padding then
    (max_target_width tracker (target_location_len r cfg)).1
  else
    target_location_len r cfg

/-- The tracker state after `compute_target_and_location`: updated through
`max_target_width` when padding is enabled, untouched otherwise. -/
def next_tracker (r : Record) (cfg : Config) (tracker : Nat) : Nat :=
  if cfg.with_padding then
    (max_target_width tracker (target_location_len r cfg)).2
  else
    tracker

/-- A value rendered left-aligned at a minimum width (the `Padded` struct of
lib.rs lines 350-359). -/
structure Padded where
  value : String
  width : Nat
  deriving DecidableEq

/-- An optional padded value (the `OptionalPadded` enum of
lib.rs lines 361-374). -/
inductive OptionalPadded where
  | none
  | some (value : String) (width : Nat)
  deriving DecidableEq

/-- Left-aligned space padding to a minimum width, the effect of the Rust
format spec used by `Padded`'s `Display`. -/
def padRight (s : String) (w : Nat) : String :=
  s ++ String.mk (List.replicate (w - s.length) ' ')

/-- Rendering of `Padded` (lib.rs lines 355-359). -/
def Padded.render (p : Padded) : String :=
  padRight p.value p.width

/-- Rendering of `OptionalPadded` (lib.rs lines 366-374): nothing for `None`,
left-aligned padding for `Some`. -/
def OptionalPadded.render : OptionalPadded → String
  | OptionalPadded.none => ""
  | OptionalPadded.some v w => padRight v w

/-- The function `compute_target_and_location` (lib.rs lines 378-431), with
the tracker state passed explicitly: returns the padded target, the optional
padded location, and the new tracker value.  When a location suffix exists the
target keeps its natural width and the location receives
`full_width - target_len`; otherwise the target receives the full width. -/
def compute_target_and_location (r : Record) (cfg : Config) (tracker : Nat) :
    (Padded × OptionalPadded) × Nat :=
  let target := r.target
  let target_len := target.length
  let fw := full_width r cfg tracker
  match (added_opt_len r cfg).1 with
  | Option.some added =>
      ((⟨target, target_len⟩, OptionalPadded.some added (fw - target_len)),
        next_tracker r cfg tracker)
  | Option.none =>
      ((⟨target, fw⟩, OptionalPadded.none), next_tracker r cfg tracker)

/-- The function `colored_level` (lib.rs lines 442-456): the color attribute
set on the style and the label text. -/
def colored_level (level : Level) (short_levels : Bool) : Color × String :=
  match level, short_levels with
  | Level.Trace, false => (Color.Magenta, "TRACE")
  | Level.Trace, true => (Color.Magenta, "TRC")
  | Level.Debug, false => (Color.Blue, "DEBUG")
  | Level.Debug, true => (Color.Blue, "DBG")
  | Level.Info, false => (Color.Green, "INFO ")
  | Level.Info, true => (Color.Green, "INF")
  | Level.Warn, false => (Color.Yellow, "WARN ")
  | Level.Warn, true => (Color.Yellow, "WRN")
  | Level.Error, false => (Color.Red, "ERROR")
  | Level.Error, true => (Color.Red, "ERR")

/-- The fields of a chrono `DateTime<Local>` value that `compute_reltime`
inspects: the naive date (modelled as one `Nat` identifying the day) and the
hour, minute, second and nanosecond components. -/
structure LocalTime where
  date : Nat
  hour : Nat
  minute : Nat
  second : Nat
  nanosecond : Nat
  deriving DecidableEq

/-- The same-wall-clock-second test of `compute_reltime`
(lib.rs lines 493-497): equal naive dates and equal hour, minute and second
fields. -/
def sameSecond (old now : LocalTime) : Bool :=
  old.date == now.date && old.hour == now.hour &&
    old.minute == now.minute && old.second == now.second

/-- Chronological comparison of two `LocalTime` values: lexicographic on
date, hour, minute, second, nanosecond.  Expresses that the wall clock did
not step backwards between two readings. -/
def LocalTime.leb (a b : LocalTime) : Bool :=
  if a.date ≠ b.date then decide (a.date < b.date)
  else if a.hour ≠ b.hour then decide (a.hour < b.hour)
  else if a.minute ≠ b.minute then decide (a.minute < b.minute)
  else if a.second ≠ b.second then decide (a.second < b.second)
  else decide (a.nanosecond ≤ b.nanosecond)

/-- The `RelTime` enum (lib.rs lines 458-462): a nanosecond delta or a full
date/time stamp. -/
inductive RelTime where
  | Diff (d : Nat)
  | DateTime (t : LocalTime)
  deriving DecidableEq

/-- The method `RelTime::is_delta` (lib.rs lines 466-469). -/
def RelTime.is_delta : RelTime → Bool
  | RelTime.Diff _ => true
  | RelTime.DateTime _ => false

/-- Zero padding on the left to a minimum width, the effect of the Rust
format spec in the `Diff` arm of `RelTime`'s `Display`. -/
def padLeftZeros (s : String) (w : Nat) : String :=
  String.mk (List.replicate (w - s.length) '0') ++ s

/-- The `Display` of `RelTime` (lib.rs lines 471-483).  The `DateTime` arm
delegates the inner formatting to chrono; that external rendering is passed
as the function `fdt`. -/
def RelTime.display (fdt : LocalTime → String) : RelTime → String
  | RelTime.Diff d => "[  +0." ++ padLeftZeros (natDecimalRepr d) 9 ++ "]"
  | RelTime.DateTime t => "[" ++ fdt t ++ "]"

/-- The function `compute_reltime` (lib.rs lines 486-505) with the
mutex-guarded last-time state passed explicitly: within the same wall-clock
second the result is the nanosecond difference, otherwise the full date/time;
in both cases the state is overwritten with `now`. -/
def compute_reltime (old now : LocalTime) : RelTime × LocalTime :=
  if sameSecond old now then
    (RelTime.Diff (now.nanosecond - old.nanosecond), now)
  else
    (RelTime.DateTime now, now)

/-- The format closure installed by `formatted_builder`
(lib.rs lines 296-345), as a pure function.  Inputs: the configuration, the
record, the width-tracker state, the last-time state and the current time,
the external chrono date/time rendering `fdt`, and the external
`timestamp_millis` rendering of the current time.  Output: the produced line
(including the terminating newline written by `writeln!`), the new tracker
state, and the new last-time state. -/
def format_record (cfg : Config) (r : Record) (tracker : Nat)
    (last_time now : LocalTime) (fdt : LocalTime → String)
    (timestamp_millis : String) : String × Nat × LocalTime :=
  let tl := compute_target_and_location r cfg tracker
  let target_str := tl.1.1.render
  let location_str := tl.1.2.render
  let tracker' := tl.2
  let level := (colored_level r.level cfg.short_levels).2
  if cfg.reltime then
    let rt := compute_reltime last_time now
    (RelTime.display fdt rt.1 ++ " " ++ level ++ " " ++ target_str ++
        location_str ++ " " ++ r.msg ++ "\n",
      tracker', rt.2)
  else if cfg.with_system_timestamp then
    (timestamp_millis ++ " " ++ level ++ " " ++ target_str ++ location_str ++
        " " ++ r.msg ++ "\n",
      tracker', last_time)
  else if cfg.with_padding then
    (level ++ " " ++ target_str ++ location_str ++ " > " ++ r.msg ++ "\n",
      tracker', last_time)
  else
    (level ++ " " ++ target_str ++ location_str ++ " " ++ r.msg ++ "\n",
      tracker', last_time)

/-- The width-tracker state after formatting a sequence of records, each with
its configuration, starting from a given tracker value. -/
def run_tracker (steps : List (Record × Config)) (tracker : Nat) : Nat :=
  steps.foldl (fun t p => (compute_target_and_location p.1 p.2 t).2) tracker

/-- Whether a character list contains two adjacent colon characters. -/
def hasAdjacentColons : List Char → Bool
  | [] => false
  | [_] => false
  | c1 :: c2 :: rest => (c1 == ':' && c2 == ':') || hasAdjacentColons (c2 :: rest)

/-! ## Helper lemmas -/

/-- The data of the one-character string used as the location delimiter. -/
lemma data_colon : (":" : String).data = [':'] := rfl

/-- The data of `String.mk` is the given list. -/
lemma data_mk (l : List Char) : (String.mk l).data = l := rfl

/-- The tracker component returned by `compute_target_and_location` is
`next_tracker`. -/
lemma compute_target_and_location_snd (r : Record) (cfg : Config)
    (tracker : Nat) :
    (compute_target_and_location r cfg tracker).2 = next_tracker r cfg tracker := by
  cases h : (added_opt_len r cfg).1 <;> simp [compute_target_and_location, h]

/-- The tracker never decreases in one `compute_target_and_location` call. -/
lemma next_tracker_ge (r : Record) (cfg : Config) (tracker : Nat) :
    tracker ≤ next_tracker r cfg tracker := by
  unfold next_tracker max_target_width
  split
  · split <;> simp <;> omega
  · omega

/-- When padding is enabled, the tracker after the call is at least the
combined target plus location length. -/
lemma next_tracker_ge_len (r : Record) (cfg : Config) (tracker : Nat)
    (h : cfg.with_padding = true) :
    target_location_len r cfg ≤ next_tracker r cfg tracker := by
  unfold next_tracker max_target_width
  rw [h]
  simp only [if_true]
  split <;> simp <;> omega

/-- The full width is always at least the target's natural length. -/
lemma target_le_full_width (r : Record) (cfg : Config) (tracker : Nat) :
    r.target.length ≤ full_width r cfg tracker := by
  unfold full_width max_target_width target_location_len
  split
  · split <;> simp <;> omega
  · omega

/-! ## C1: configuration resolution -/

/-- C1 counterexample: the claim states that, for a field whose default is
true and whose environment variable is set to a string other than "1", the
resolved field is true (falling back to the default).  With the default for
`short_levels` set to true and `RUST_LOG_SHORT_LEVELS` set to "0", the
resolver yields false, not the default true. -/
theorem claim_C1_counterexample :
    ({ Config.default with short_levels := true } : Config).short_levels = true ∧
    (Config.from_environment_variables
        (fun k => if k = "RUST_LOG_SHORT_LEVELS" then some "0" else none)
        "RUST_LOG"
        { Config.default with short_levels := true }).short_levels = false := by
  exact ⟨rfl, by decide⟩

/-- C1 amended: for every boolean configuration field, the resolver yields
true when the corresponding environment variable is set to exactly "1", false
when it is set to any other value, and the caller-supplied default only when
the variable is absent. -/
theorem claim_C1_amended (env : String → Option String) (pfx : String)
    (fb : Config) :
    ((env (pfx ++ "_WITH_SYSTEM_TIMESTAMPS") = some "1" →
        (Config.from_environment_variables env pfx fb).with_system_timestamp = true) ∧
      (∀ v, env (pfx ++ "_WITH_SYSTEM_TIMESTAMPS") = some v → v ≠ "1" →
        (Config.from_environment_variables env pfx fb).with_system_timestamp = false) ∧
      (env (pfx ++ "_WITH_SYSTEM_TIMESTAMPS") = none →
        (Config.from_environment_variables env pfx fb).with_system_timestamp =
          fb.with_system_timestamp)) ∧
    ((env (pfx ++ "_WITH_RELATIVE_TIMESTAMPS") = some "1" →
        (Config.from_environment_variables env pfx fb).reltime = true) ∧
      (∀ v, env (pfx ++ "_WITH_RELATIVE_TIMESTAMPS") = some v → v ≠ "1" →
        (Config.from_environment_variables env pfx fb).reltime = false) ∧
      (env (pfx ++ "_WITH_RELATIVE_TIMESTAMPS") = none →
        (Config.from_environment_variables env pfx fb).reltime = fb.reltime)) ∧
    ((env (pfx ++ "_SHORT_LEVELS") = some "1" →
        (Config.from_environment_variables env pfx fb).short_levels = true) ∧
      (∀ v, env (pfx ++ "_SHORT_LEVELS") = some v → v ≠ "1" →
        (Config.from_environment_variables env pfx fb).short_levels = false) ∧
      (env (pfx ++ "_SHORT_LEVELS") = none →
        (Config.from_environment_variables env pfx fb).short_levels =
          fb.short_levels)) ∧
    ((env (pfx ++ "_WITH_FILE_NAME") = some "1" →
        (Config.from_environment_variables env pfx fb).with_file_name = true) ∧
      (∀ v, env (pfx ++ "_WITH_FILE_NAME") = some v → v ≠ "1" →
        (Config.from_environment_variables env pfx fb).with_file_name = false) ∧
      (env (pfx ++ "_WITH_FILE_NAME") = none →
        (Config.from_environment_variables env pfx fb).with_file_name =
          fb.with_file_name)) ∧
    ((env (pfx ++ "_WITH_LINE_NUMBER") = some "1" →
        (Config.from_environment_variables env pfx fb).with_line_number = true) ∧
      (∀ v, env (pfx ++ "_WITH_LINE_NUMBER") = some v → v ≠ "1" →
        (Config.from_environment_variables env pfx fb).with_line_number = false) ∧
      (env (pfx ++ "_WITH_LINE_NUMBER") = none →
        (Config.from_environment_variables env pfx fb).with_line_number =
          fb.with_line_number)) ∧
    ((env (pfx ++ "_WITH_PADDING") = some "1" →
        (Config.from_environment_variables env pfx fb).with_padding = true) ∧
      (∀ v, env (pfx ++ "_WITH_PADDING") = some v → v ≠ "1" →
        (Config.from_environment_variables env pfx fb).with_padding = false) ∧
      (env (pfx ++ "_WITH_PADDING") = none →
        (Config.from_environment_variables env pfx fb).with_padding =
          fb.with_padding)) := by
  refine ⟨⟨?_, ?_, ?_⟩, ⟨?_, ?_, ?_⟩, ⟨?_, ?_, ?_⟩, ⟨?_, ?_, ?_⟩, ⟨?_, ?_, ?_⟩,
    ⟨?_, ?_, ?_⟩⟩ <;>
    first
      | (intro h; simp [Config.from_environment_variables, h])
      | (intro v h hv;
          simp [Config.from_environment_variables, h, beq_eq_false_iff_ne.mpr hv])

/-- Environment used by the C1 witness: `RUST_LOG_SHORT_LEVELS` is "1",
`RUST_LOG_WITH_PADDING` is "yes", all other variables are absent. -/
def envW : String → Option String := fun k =>
  if k = "RUST_LOG_SHORT_LEVELS" then some "1"
  else if k = "RUST_LOG_WITH_PADDING" then some "yes"
  else none

/-- C1 witness: concrete instantiation of the three resolution cases. -/
theorem claim_C1_witness :
    (Config.from_environment_variables envW "RUST_LOG" Config.default).short_levels
        = true ∧
    (Config.from_environment_variables envW "RUST_LOG" Config.default).with_padding
        = false ∧
    (Config.from_environment_variables envW "RUST_LOG" Config.default).with_file_name
        = Config.default.with_file_name := by
  refine ⟨?_, ?_, ?_⟩
  · exact (claim_C1_amended envW "RUST_LOG" Config.default).2.2.1.1 (by decide)
  · exact (claim_C1_amended envW "RUST_LOG" Config.default).2.2.2.2.2.2.1
      "yes" (by decide) (by decide)
  · exact (claim_C1_amended envW "RUST_LOG" Config.default).2.2.2.1.2.2 (by decide)

/-! ## C7: level colorizer -/

/-- C7: for every severity level and both short/long settings, the colorizer
returns a label of fixed width (5 characters long form, 3 characters short
form) and the documented color: Trace magenta, Debug blue, Info green, Warn
yellow, Error red; the match is total over the closed level type. -/
theorem claim_C7 (l : Level) (short : Bool) :
    ((colored_level l short).2.length = if short then 3 else 5) ∧
    (colored_level l short).1 =
      (match l with
        | Level.Trace => Color.Magenta
        | Level.Debug => Color.Blue
        | Level.Info => Color.Green
        | Level.Warn => Color.Yellow
        | Level.Error => Color.Red) := by
  cases l <;> cases short <;> exact ⟨rfl, rfl⟩

/-! ## C8: relative timestamps -/

/-- C8: for every pair of consecutive relative-timestamp calls, the result is
a delta (with `is_delta` true) exactly when the current call falls in the same
wall-clock second as the stored previous time, a full date/time stamp
otherwise, and the stored last-time state is unconditionally overwritten with
the current time. -/
theorem claim_C8 (old now : LocalTime) :
    (compute_reltime old now).2 = now ∧
    (compute_reltime old now).1.is_delta = sameSecond old now ∧
    (sameSecond old now = true →
      (compute_reltime old now).1 =
        RelTime.Diff (now.nanosecond - old.nanosecond)) ∧
    (sameSecond old now = false →
      (compute_reltime old now).1 = RelTime.DateTime now) := by
  unfold compute_reltime
  by_cases h : sameSecond old now <;> simp [h, RelTime.is_delta]

/-- C8 witness: a same-second pair yields the nanosecond delta, a pair across
a second boundary yields the full date/time stamp. -/
theorem claim_C8_witness :
    (compute_reltime ⟨0, 0, 0, 0, 5⟩ ⟨0, 0, 0, 0, 7⟩).1 = RelTime.Diff 2 ∧
    (compute_reltime ⟨0, 0, 0, 0, 5⟩ ⟨0, 0, 0, 1, 0⟩).1 =
      RelTime.DateTime ⟨0, 0, 0, 1, 0⟩ := by
  constructor
  · exact (claim_C8 ⟨0, 0, 0, 0, 5⟩ ⟨0, 0, 0, 0, 7⟩).2.2.1 (by decide)
  · exact (claim_C8 ⟨0, 0, 0, 0, 5⟩ ⟨0, 0, 0, 1, 0⟩).2.2.2 (by decide)

/-! ## C9: end-to-end default-configuration line -/

/-- C9: with the default configuration, a Warn record with target "app::net"
and message "conn dropped" renders, color codes aside, as exactly
"WARN  app::net conn dropped" followed by one newline. -/
theorem claim_C9 :
    (format_record Config.default
        ⟨"app::net", none, none, Level.Warn, "conn dropped"⟩ 0
        ⟨0, 0, 0, 0, 0⟩ ⟨0, 0, 0, 0, 0⟩ (fun _ => "") "").1 =
      "WARN  app::net conn dropped\n" := by
  decide

/-! ## C10: padding disabled leaves the tracker untouched -/

/-- C10: with padding disabled, computing the target and location leaves the
width tracker exactly as it was, for any prior tracker value. -/
theorem claim_C10 (r : Record) (cfg : Config) (tracker : Nat)
    (h : cfg.with_padding = false) :
    (compute_target_and_location r cfg tracker).2 = tracker := by
  rw [compute_target_and_location_snd]
  unfold next_tracker
  rw [h]
  simp

/-- C10 witness: concrete record and configuration with padding disabled and
a nonzero prior tracker value. -/
theorem claim_C10_witness :
    (compute_target_and_location
        ⟨"app", some "lib.rs", some 3, Level.Info, "m"⟩
        { Config.default with with_file_name := true, with_line_number := true }
        7).2 = 7 :=
  claim_C10 ⟨"app", some "lib.rs", some 3, Level.Info, "m"⟩
    { Config.default with with_file_name := true, with_line_number := true }
    7 rfl

/-! ## C2: no panics, no underflow -/

/-- C2: for every record, configuration and tracker state, the width
subtraction in `compute_target_and_location` never underflows (the full width
is at least the target's natural length, so the location width is the exact
difference), and, for a wall clock that did not step backwards, the
nanosecond subtraction in `compute_reltime` never underflows in the
same-second branch. -/
theorem claim_C2 (r : Record) (cfg : Config) (tracker : Nat)
    (old now : LocalTime) :
    r.target.length ≤ full_width r cfg tracker ∧
    (∀ v w, (compute_target_and_location r cfg tracker).1.2 =
        OptionalPadded.some v w →
      r.target.length + w = full_width r cfg tracker) ∧
    (sameSecond old now = true → LocalTime.leb old now = true →
      old.nanosecond ≤ now.nanosecond ∧
      (compute_reltime old now).1 =
        RelTime.Diff (now.nanosecond - old.nanosecond)) := by
  refine ⟨target_le_full_width r cfg tracker, ?_, ?_⟩
  · intro v w hvw
    cases h : (added_opt_len r cfg).1 with
    | none => simp [compute_target_and_location, h] at hvw
    | some a =>
      simp [compute_target_and_location, h] at hvw
      have hle := target_le_full_width r cfg tracker
      omega
  · intro hs hle
    have hcomp : ((old.date = now.date ∧ old.hour = now.hour) ∧
        old.minute = now.minute) ∧ old.second = now.second := by
      simpa [sameSecond, Bool.and_eq_true, beq_iff_eq] using hs
    obtain ⟨⟨⟨hd, hh⟩, hm⟩, hsec⟩ := hcomp
    unfold LocalTime.leb at hle
    simp [hd, hh, hm, hsec] at hle
    refine ⟨hle, ?_⟩
    unfold compute_reltime
    simp [hs]

/-- Record used by the C2 witness. -/
def recW : Record := ⟨"app", some "lib.rs", none, Level.Info, "m"⟩

/-- Configuration used by the C2 witness: file name and padding enabled. -/
def cfgW : Config :=
  { Config.default with with_file_name := true, with_padding := true }

/-- C2 witness: concrete record with a location suffix and a concrete
same-second monotone pair of clock readings. -/
theorem claim_C2_witness :
    recW.target.length + 7 = full_width recW cfgW 0 ∧
    (5 : Nat) ≤ 9 := by
  constructor
  · exact (claim_C2 recW cfgW 0 ⟨0, 0, 0, 0, 5⟩ ⟨0, 0, 0, 0, 9⟩).2.1
      ":lib.rs" 7 (by decide)
  · exact ((claim_C2 recW cfgW 0 ⟨0, 0, 0, 0, 5⟩ ⟨0, 0, 0, 0, 9⟩).2.2
      (by decide) (by decide)).1

/-! ## C3: width-tracker monotonicity -/

/-- C3 counterexample: the claim states that after formatting any record
whose target plus location length is L the tracker is at least L; with
padding disabled (as in the default configuration) the tracker is not
consulted, so it stays below L. -/
theorem claim_C3_counterexample :
    (compute_target_and_location ⟨"a", none, none, Level.Warn, "m"⟩
        Config.default 0).2 <
      target_location_len ⟨"a", none, none, Level.Warn, "m"⟩ Config.default := by
  decide

/-- C3 amended: the tracker never decreases across any sequence of formatted
records, and after formatting a record with padding enabled the tracker is at
least that record's combined target plus location length. -/
theorem claim_C3_amended (steps : List (Record × Config)) (tracker : Nat)
    (r : Record) (cfg : Config) :
    tracker ≤ run_tracker steps tracker ∧
    (cfg.with_padding = true →
      target_location_len r cfg ≤
        (compute_target_and_location r cfg tracker).2) := by
  constructor
  · induction steps generalizing tracker with
    | nil => simp [run_tracker]
    | cons s ss ih =>
      have h1 : tracker ≤ (compute_target_and_location s.1 s.2 tracker).2 := by
        rw [compute_target_and_location_snd]
        exact next_tracker_ge s.1 s.2 tracker
      have h2 := ih ((compute_target_and_location s.1 s.2 tracker).2)
      calc tracker ≤ (compute_target_and_location s.1 s.2 tracker).2 := h1
        _ ≤ run_tracker ss ((compute_target_and_location s.1 s.2 tracker).2) := h2
        _ = run_tracker (s :: ss) tracker := by simp [run_tracker]
  · intro h
    rw [compute_target_and_location_snd]
    exact next_tracker_ge_len r cfg tracker h

/-- C3 witness: formatting with padding enabled raises the tracker to the
record's combined length. -/
theorem claim_C3_witness :
    target_location_len ⟨"alpha", none, none, Level.Debug, "m"⟩
        { Config.default with with_padding := true } ≤
      (compute_target_and_location ⟨"alpha", none, none, Level.Debug, "m"⟩
        { Config.default with with_padding := true } 1).2 :=
  (claim_C3_amended [] 1 ⟨"alpha", none, none, Level.Debug, "m"⟩
    { Config.default with with_padding := true }).2 rfl

/-! ## C4: assembled line structure -/

/-- The optional timestamp prefix of the assembled line, with its following
separating space: the relative timestamp when `reltime` is set, the
`timestamp_millis` rendering when `with_system_timestamp` is set, nothing
otherwise. -/
def line_timestamp_part (cfg : Config) (last_time now : LocalTime)
    (fdt : LocalTime → String) (timestamp_millis : String) : String :=
  if cfg.reltime then
    RelTime.display fdt (compute_reltime last_time now).1 ++ " "
  else if cfg.with_system_timestamp then
    timestamp_millis ++ " "
  else
    ""

/-- The separator between the target/location and the message: " > " only in
the padding branch that is reached when no timestamp mode is active, a plain
space otherwise. -/
def line_separator (cfg : Config) : String :=
  if cfg.with_padding && !cfg.reltime && !cfg.with_system_timestamp then " > "
  else " "

/-- C4 counterexample: the claim states the separator is the padding marker
whenever padding is enabled; with a system timestamp active and padding
enabled the produced line contains no '>' character at all. -/
theorem claim_C4_counterexample :
    ({ Config.default with
        with_system_timestamp := true, with_padding := true } : Config).with_padding
        = true ∧
    (format_record
        { Config.default with with_system_timestamp := true, with_padding := true }
        ⟨"t", none, none, Level.Info, "m"⟩ 0
        ⟨0, 0, 0, 0, 0⟩ ⟨0, 0, 0, 0, 0⟩ (fun _ => "") "TS").1 =
      "TS INFO  t m\n" ∧
    ((format_record
        { Config.default with with_system_timestamp := true, with_padding := true }
        ⟨"t", none, none, Level.Info, "m"⟩ 0
        ⟨0, 0, 0, 0, 0⟩ ⟨0, 0, 0, 0, 0⟩ (fun _ => "") "TS").1).data.count '>'
      = 0 := by
  refine ⟨rfl, by decide, by decide⟩

/-- C4 amended: for every record and configuration the assembled line is, in
order, the optional timestamp, the colorized level label, the padded target
and location, a separator (" > " when padding is enabled and no timestamp
mode is active, a plain space otherwise), and the message, followed by one
newline. -/
theorem claim_C4_amended (cfg : Config) (r : Record) (tracker : Nat)
    (last_time now : LocalTime) (fdt : LocalTime → String) (ts : String) :
    (format_record cfg r tracker last_time now fdt ts).1 =
      line_timestamp_part cfg last_time now fdt ts ++
        (colored_level r.level cfg.short_levels).2 ++ " " ++
        (compute_target_and_location r cfg tracker).1.1.render ++
        (compute_target_and_location r cfg tracker).1.2.render ++
        line_separator cfg ++ r.msg ++ "\n" := by
  unfold format_record line_timestamp_part line_separator
  apply String.ext
  by_cases h1 : cfg.reltime <;> by_cases h2 : cfg.with_system_timestamp <;>
    by_cases h3 : cfg.with_padding <;>
    simp [h1, h2, h3, String.data_append]

/-! ## C5: location suffix shape -/

/-- Decimal digit characters are never the colon delimiter. -/
lemma digitChar_ne_colon : ∀ m, m < 10 → Nat.digitChar m ≠ ':' := by decide

/-- The decimal digit list of a natural number is never empty. -/
lemma natDecimalDigits_ne_nil (n : Nat) : natDecimalDigits n ≠ [] := by
  rw [natDecimalDigits]
  split <;> simp

/-- No character of a decimal digit list is the colon delimiter. -/
lemma natDecimalDigits_no_colon (n : Nat) :
    ∀ c ∈ natDecimalDigits n, c ≠ ':' := by
  induction n using Nat.strong_induction_on with
  | _ n ih =>
    rw [natDecimalDigits]
    split
    · next h =>
        intro c hc
        simp only [List.mem_singleton] at hc
        subst hc
        exact digitChar_ne_colon n h
    · next h =>
        intro c hc
        rw [List.mem_append] at hc
        rcases hc with hc | hc
        · exact ih (n / 10) (Nat.div_lt_self (by omega) (by omega)) c hc
        · simp only [List.mem_singleton] at hc
          subst hc
          exact digitChar_ne_colon (n % 10) (Nat.mod_lt n (by omega))

/-- The equation of `hasAdjacentColons` on a list with at least two
elements. -/
lemma hasAdj_cons (x y : Char) (l : List Char) :
    hasAdjacentColons (x :: y :: l) =
      ((x == ':' && y == ':') || hasAdjacentColons (y :: l)) := rfl

/-- A list without colons has no adjacent colons. -/
lemma hasAdj_noColon (l : List Char) (h : ∀ c ∈ l, c ≠ ':') :
    hasAdjacentColons l = false := by
  induction l with
  | nil => rfl
  | cons x xs ih =>
    cases xs with
    | nil => rfl
    | cons y ys =>
      rw [hasAdj_cons]
      have hx : (x == ':') = false := by
        simpa using h x (by simp)
      rw [hx]
      simp only [Bool.false_and, Bool.false_or]
      exact ih fun c hc => h c (List.mem_cons_of_mem x hc)

/-- A single leading colon followed by a colon-free list has no adjacent
colons. -/
lemma hasAdj_colon_cons (l : List Char) (h : ∀ c ∈ l, c ≠ ':') :
    hasAdjacentColons (':' :: l) = false := by
  cases l with
  | nil => rfl
  | cons y ys =>
    rw [hasAdj_cons]
    have hy : (y == ':') = false := by
      simpa using h y (by simp)
    rw [hy]
    simp only [Bool.and_false, Bool.false_or]
    exact hasAdj_noColon _ h

/-- A colon-free list, one colon, then another colon-free list has no
adjacent colons. -/
lemma hasAdj_mid (f d : List Char) (hf : ∀ c ∈ f, c ≠ ':')
    (hd2 : ∀ c ∈ d, c ≠ ':') :
    hasAdjacentColons (f ++ ':' :: d) = false := by
  induction f with
  | nil => simpa using hasAdj_colon_cons d hd2
  | cons x xs ih =>
    have hx : (x == ':') = false := by
      simpa using hf x (by simp)
    have hxs : ∀ c ∈ xs, c ≠ ':' := fun c hc => hf c (List.mem_cons_of_mem x hc)
    cases xs with
    | nil =>
      simp only [List.cons_append, List.nil_append]
      rw [hasAdj_cons, hx]
      simp only [Bool.false_and, Bool.false_or]
      exact hasAdj_colon_cons d hd2
    | cons y ys =>
      simp only [List.cons_append]
      rw [hasAdj_cons, hx]
      simp only [Bool.false_and, Bool.false_or]
      have := ih hxs
      simpa using this

/-- A leading colon, a nonempty colon-free list, a colon, then a colon-free
list has no adjacent colons. -/
lemma hasAdj_full (f d : List Char) (hfne : f ≠ [])
    (hf : ∀ c ∈ f, c ≠ ':') (hd2 : ∀ c ∈ d, c ≠ ':') :
    hasAdjacentColons (':' :: (f ++ ':' :: d)) = false := by
  cases f with
  | nil => exact absurd rfl hfne
  | cons x xs =>
    simp only [List.cons_append]
    rw [hasAdj_cons]
    have hx : (x == ':') = false := by
      simpa using hf x (by simp)
    rw [hx]
    simp only [Bool.and_false, Bool.false_or]
    have := hasAdj_mid (x :: xs) d hf hd2
    simpa using this

/-- The last character of a list ending in a nonempty colon-free list is not
a colon. -/
lemma getLast?_ne_colon (l1 l2 : List Char) (h2 : l2 ≠ [])
    (hc : ∀ c ∈ l2, c ≠ ':') : (l1 ++ l2).getLast? ≠ some ':' := by
  rw [List.getLast?_append_of_ne_nil l1 h2]
  intro hcon
  rw [List.getLast?_eq_some_iff] at hcon
  obtain ⟨l', hl⟩ := hcon
  exact hc ':' (by simp [hl]) rfl

/-- A shown file comes from the record's file field. -/
lemma shown_file_eq_some {r : Record} {cfg : Config} {f : String}
    (h : shown_file r cfg = some f) : r.file = some f := by
  unfold shown_file at h
  split at h
  · exact h
  · exact absurd h (by simp)

/-- C5: for all combinations of file and line presence and padding, the
location suffix is the file segment (colon-prefixed) followed by the line
segment (colon-prefixed), in that order; it is empty when both are absent,
has no adjacent colons, does not end in a colon, and contains exactly one
colon per present segment.  The file path is assumed nonempty and colon-free,
as source file paths are. -/
theorem claim_C5 (r : Record) (cfg : Config)
    (hf : ∀ f, r.file = some f → f.length ≠ 0 ∧ ∀ c ∈ f.data, c ≠ ':') :
    (location_suffix r cfg =
      (match shown_file r cfg with
        | some f => ":" ++ f
        | none => "") ++
      (match shown_line r cfg with
        | some n => ":" ++ natDecimalRepr n
        | none => "")) ∧
    (shown_file r cfg = none → shown_line r cfg = none →
      location_suffix r cfg = "") ∧
    hasAdjacentColons (location_suffix r cfg).data = false ∧
    (location_suffix r cfg).data.getLast? ≠ some ':' ∧
    (location_suffix r cfg).data.count ':' =
      (if (shown_file r cfg).isSome then 1 else 0) +
        (if (shown_line r cfg).isSome then 1 else 0) := by
  cases hsf : shown_file r cfg with
  | none =>
    cases hsl : shown_line r cfg with
    | none =>
      refine ⟨?_, ?_, ?_, ?_, ?_⟩ <;>
        simp [location_suffix, added_opt_len, hsf, hsl, hasAdjacentColons]
    | some n =>
      have hnc := natDecimalDigits_no_colon n
      have hne := natDecimalDigits_ne_nil n
      have hdata : (location_suffix r cfg).data = ':' :: natDecimalDigits n := by
        simp [location_suffix, added_opt_len, hsf, hsl, String.data_append,
          natDecimalRepr, data_colon]
      refine ⟨?_, ?_, ?_, ?_, ?_⟩
      · simp [location_suffix, added_opt_len, hsf, hsl]
      · intro _ h
        exact absurd h (by simp)
      · rw [hdata]
        exact hasAdj_colon_cons _ hnc
      · rw [hdata]
        have := getLast?_ne_colon [':'] (natDecimalDigits n) hne hnc
        simpa using this
      · rw [hdata]
        simp [hsf, hsl, List.count_cons, List.count_eq_zero.mpr
          (fun h => hnc ':' h rfl)]
  | some f =>
    obtain ⟨hflen, hfnc⟩ := hf f (shown_file_eq_some hsf)
    have hfne : f.data ≠ [] := by
      intro h
      apply hflen
      have : f.length = f.data.length := rfl
      rw [this, h]
      rfl
    cases hsl : shown_line r cfg with
    | none =>
      have hdata : (location_suffix r cfg).data = ':' :: f.data := by
        simp [location_suffix, added_opt_len, hsf, hsl, String.data_append,
          data_colon]
      refine ⟨?_, ?_, ?_, ?_, ?_⟩
      · apply String.ext
        simp [location_suffix, added_opt_len, hsf, hsl, String.data_append]
      · intro h _
        exact absurd h (by simp)
      · rw [hdata]
        exact hasAdj_colon_cons _ hfnc
      · rw [hdata]
        have := getLast?_ne_colon [':'] f.data hfne hfnc
        simpa using this
      · rw [hdata]
        simp [hsf, hsl, List.count_cons, List.count_eq_zero.mpr
          (fun h => hfnc ':' h rfl)]
    | some n =>
      have hnc := natDecimalDigits_no_colon n
      have hne := natDecimalDigits_ne_nil n
      have hdata : (location_suffix r cfg).data =
          ':' :: (f.data ++ ':' :: natDecimalDigits n) := by
        simp [location_suffix, added_opt_len, hsf, hsl, String.data_append,
          natDecimalRepr, data_colon]
      refine ⟨?_, ?_, ?_, ?_, ?_⟩
      · apply String.ext
        simp [location_suffix, added_opt_len, hsf, hsl, String.data_append,
          natDecimalRepr, data_colon]
      · intro h _
        exact absurd h (by simp)
      · rw [hdata]
        exact hasAdj_full f.data (natDecimalDigits n) hfne hfnc hnc
      · rw [hdata]
        have := getLast?_ne_colon (':' :: f.data ++ [':'])
          (natDecimalDigits n) hne hnc
        simpa using this
      · rw [hdata]
        simp [hsf, hsl, List.count_cons, List.count_append,
          List.count_eq_zero.mpr (fun h => hfnc ':' h rfl),
          List.count_eq_zero.mpr (fun h => hnc ':' h rfl)]

/-- C5 witness: with file name and line number enabled on a concrete record,
the location suffix has no adjacent colons and no trailing colon. -/
theorem claim_C5_witness :
    hasAdjacentColons (location_suffix
        ⟨"app", some "lib.rs", some 42, Level.Info, "m"⟩
        { Config.default with
            with_file_name := true, with_line_number := true }).data = false ∧
    (location_suffix ⟨"app", some "lib.rs", some 42, Level.Info, "m"⟩
        { Config.default with
            with_file_name := true,
            with_line_number := true }).data.getLast? ≠ some ':' := by
  constructor
  · exact (claim_C5 ⟨"app", some "lib.rs", some 42, Level.Info, "m"⟩
      { Config.default with with_file_name := true, with_line_number := true }
      (by intro f hfeq; cases hfeq; exact ⟨by decide, by decide⟩)).2.2.1
  · exact (claim_C5 ⟨"app", some "lib.rs", some 42, Level.Info, "m"⟩
      { Config.default with with_file_name := true, with_line_number := true }
      (by intro f hfeq; cases hfeq; exact ⟨by decide, by decide⟩)).2.2.2.1

/-! ## C6: padding distribution between target and location -/

/-- Padding a string to its own natural length leaves it unchanged. -/
lemma padRight_natural (s : String) : padRight s s.length = s := by
  apply String.ext
  simp [padRight, String.data_append, data_mk]

/-- With no location suffix the added length is zero. -/
lemma added_none_len (r : Record) (cfg : Config)
    (h : (added_opt_len r cfg).1 = none) : (added_opt_len r cfg).2 = 0 := by
  unfold added_opt_len at h ⊢
  cases hsf : shown_file r cfg <;> cases hsl : shown_line r cfg <;>
    rw [hsf, hsl] at h <;> simp_all

/-- The length of the one-character colon string. -/
lemma length_colon : (":" : String).length = 1 := rfl

/-- The added length equals the length of the location suffix string. -/
lemma added_len_eq (r : Record) (cfg : Config) (a : String)
    (ha : (added_opt_len r cfg).1 = some a) :
    a.length = (added_opt_len r cfg).2 := by
  unfold added_opt_len at ha ⊢
  cases hsf : shown_file r cfg with
  | none =>
    cases hsl : shown_line r cfg with
    | none =>
      rw [hsf, hsl] at ha
      simp at ha
    | some n =>
      rw [hsf, hsl] at ha
      simp only [Option.some.injEq] at ha
      subst ha
      simp [String.length_append, length_colon]
      omega
  | some f =>
    cases hsl : shown_line r cfg with
    | none =>
      rw [hsf, hsl] at ha
      simp only [Option.some.injEq] at ha
      subst ha
      simp [String.length_append, length_colon]
      omega
    | some n =>
      rw [hsf, hsl] at ha
      simp only [Option.some.injEq] at ha
      subst ha
      simp [String.length_append, length_colon]
      omega

/-- C6: whenever a location suffix exists, the target piece keeps its natural
width (so its rendering is the bare target) and the location piece receives
exactly the combined width minus the target's natural length; with padding
disabled every width equals the natural string length. -/
theorem claim_C6 (r : Record) (cfg : Config) (tracker : Nat) :
    (∀ v w, (compute_target_and_location r cfg tracker).1.2 =
        OptionalPadded.some v w →
      (compute_target_and_location r cfg tracker).1.1.width = r.target.length ∧
      (compute_target_and_location r cfg tracker).1.1.render = r.target ∧
      w = full_width r cfg tracker - r.target.length) ∧
    (cfg.with_padding = false →
      (compute_target_and_location r cfg tracker).1.1.width = r.target.length ∧
      (∀ v w, (compute_target_and_location r cfg tracker).1.2 =
          OptionalPadded.some v w → w = v.length)) := by
  constructor
  · intro v w hvw
    cases h : (added_opt_len r cfg).1 with
    | none => simp [compute_target_and_location, h] at hvw
    | some a =>
      simp [compute_target_and_location, h] at hvw
      refine ⟨by simp [compute_target_and_location, h], ?_, ?_⟩
      · simp [compute_target_and_location, h, Padded.render, padRight_natural]
      · omega
  · intro hp
    constructor
    · cases h : (added_opt_len r cfg).1 with
      | none =>
        have hz := added_none_len r cfg h
        simp [compute_target_and_location, h, full_width, hp,
          target_location_len, hz]
      | some a => simp [compute_target_and_location, h]
    · intro v w hvw
      cases h : (added_opt_len r cfg).1 with
      | none => simp [compute_target_and_location, h] at hvw
      | some a =>
        simp [compute_target_and_location, h] at hvw
        have hlen := added_len_eq r cfg a h
        have hfw : full_width r cfg tracker = target_location_len r cfg := by
          simp [full_width, hp]
        obtain ⟨hv, hw⟩ := hvw
        subst hv
        rw [← hw, hfw]
        unfold target_location_len
        omega

/-- Configuration with only the file name enabled (padding disabled), used by
the C6 witness. -/
def cfgF : Config := { Config.default with with_file_name := true }

/-- C6 witness: on a concrete record with a file, the target piece renders at
its natural width, and with padding disabled the location width is the
suffix's natural length. -/
theorem claim_C6_witness :
    (compute_target_and_location recW cfgW 0).1.1.render = recW.target ∧
    (7 : Nat) = (":lib.rs" : String).length := by
  constructor
  · exact ((claim_C6 recW cfgW 0).1 ":lib.rs" 7 (by decide)).2.1
  · exact ((claim_C6 recW cfgF 0).2 rfl).2 ":lib.rs" 7 (by decide)
